import Mathlib

/-!
Verification of the fxTwitch clip relay (src/fxtwitch_cache.py) against its
natural-language specification.  The Python source is shallowly embedded:
the two upstream HTTP responses (token endpoint, GraphQL endpoint) are
passed in as explicit values, JSON documents are an inductive type with
Python subscript semantics, and Python exceptions become an explicit error
type carried in `Except`.
-/

namespace FxTwitch

/-! ## String utilities -/

/-- Substring test on character lists: `isPrefixL n h` is true when `n` is an
initial segment of `h`. -/
def isPrefixL : List Char → List Char → Bool
  | [], _ => true
  | _ :: _, [] => false
  | a :: as, b :: bs => a == b && isPrefixL as bs

/-- `containsSubL hay needle` is true when `needle` occurs contiguously in
`hay`; this is the semantics of the Python expression `needle in hay`. -/
def containsSubL : List Char → List Char → Bool
  | [], needle => needle.isEmpty
  | h :: t, needle => isPrefixL needle (h :: t) || containsSubL t needle

/-- Python substring test `needle in hay` at the `String` level. -/
def strContainsSub (hay needle : String) : Bool :=
  containsSubL hay.data needle.data

/-- `strStartsWith s p` is true when `p` is an initial segment of `s`. -/
def strStartsWith (s p : String) : Bool :=
  isPrefixL p.data s.data

/-- Model of the Python `str.lower()` method: character-wise lowering.
(`Char.toLower` lowers the ASCII range, which covers every string the
program compares; the bot markers are all ASCII.) -/
def py_lower (s : String) : String :=
  String.mk (s.data.map Char.toLower)

/-- A single-quote character as a string (used to reproduce the text of
Python exception messages such as `str(KeyError("clip"))`). -/
def squote : String := String.singleton (Char.ofNat 39)

/-! ## Percent-encoding (`requests.utils.quote`, i.e. `urllib.parse.quote`
with the default `safe = "/"`). -/

/-- Upper-case hexadecimal digit for a value below 16. -/
def hexDigitChar (n : Nat) : Char :=
  if n < 10 then Char.ofNat (48 + n) else Char.ofNat (55 + n)

/-- UTF-8 encoding of one character, as byte values. -/
def charUtf8Bytes (c : Char) : List Nat :=
  let n := c.toNat
  if n < 128 then [n]
  else if n < 2048 then [192 + n / 64, 128 + n % 64]
  else if n < 65536 then [224 + n / 4096, 128 + (n / 64) % 64, 128 + n % 64]
  else [240 + n / 262144, 128 + (n / 4096) % 64, 128 + (n / 64) % 64, 128 + n % 64]

/-- Bytes that `urllib.parse.quote` leaves unencoded with `safe = "/"`:
letters, digits, `_ . - ~` and `/`. -/
def isQuoteSafeByte (b : Nat) : Bool :=
  (65 ≤ b && b ≤ 90) || (97 ≤ b && b ≤ 122) || (48 ≤ b && b ≤ 57) ||
    b == 45 || b == 46 || b == 95 || b == 126 || b == 47

/-- Percent-encode one byte value. -/
def quoteByte (b : Nat) : String :=
  if isQuoteSafeByte b then String.singleton (Char.ofNat b)
  else "%" ++ String.singleton (hexDigitChar (b / 16)) ++ String.singleton (hexDigitChar (b % 16))

/-- `requests.utils.quote(s)`: UTF-8 encode, then percent-encode every byte
outside the safe set. -/
def pyQuote (s : String) : String :=
  String.join (((s.data.flatMap charUtf8Bytes).map quoteByte))

/-! ## JSON values and Python subscript semantics -/

/-- JSON documents, as decoded by `response.json()`. -/
inductive Json where
  | null : Json
  | bool (b : Bool) : Json
  | num (n : Int) : Json
  | str (s : String) : Json
  | arr (elems : List Json) : Json
  | obj (fields : List (String × Json)) : Json

/-- Python exceptions relevant to the program, each carrying the text that
`str(e)` produces for it. -/
inductive PyErr where
  | exn (msg : String) : PyErr
  | keyError (msg : String) : PyErr
  | typeError (msg : String) : PyErr
  | indexError (msg : String) : PyErr
deriving DecidableEq

/-- The text `str(e)` of an exception (the message stored at the raise site). -/
def PyErr.pyMessage : PyErr → String
  | .exn m => m
  | .keyError m => m
  | .typeError m => m
  | .indexError m => m

mutual

/-- Python `repr` of a JSON value (scalars exactly as Python prints them;
container element strings are single-quoted without escaping, which is
exact for every string the program ever prints). -/
def Json.pyRepr : Json → String
  | Json.null => "None"
  | Json.bool true => "True"
  | Json.bool false => "False"
  | Json.num n => toString n
  | Json.str s => squote ++ s ++ squote
  | Json.arr xs => "[" ++ pyReprList xs ++ "]"
  | Json.obj kvs => "\x7b" ++ pyReprObj kvs ++ "\x7d"

/-- comma-separated `repr`s of list elements -/
def pyReprList : List Json → String
  | [] => ""
  | [x] => Json.pyRepr x
  | x :: y :: xs => Json.pyRepr x ++ ", " ++ pyReprList (y :: xs)

/-- comma-separated `repr`s of dict items -/
def pyReprObj : List (String × Json) → String
  | [] => ""
  | [(k, v)] => squote ++ k ++ squote ++ ": " ++ Json.pyRepr v
  | (k, v) :: p :: kvs => squote ++ k ++ squote ++ ": " ++ Json.pyRepr v ++ ", " ++ pyReprObj (p :: kvs)

end

/-- Python `str()` of a JSON value, as used by f-string interpolation. -/
def Json.pyStr (j : Json) : String :=
  match j with
  | Json.str s => s
  | j => j.pyRepr

/-- Python subscript with a string key, `j[k]`: a lookup on dicts, a
`TypeError` on every other value (notably `None`). -/
def Json.getKey : Json → String → Except PyErr Json
  | Json.obj kvs, k =>
    match kvs.lookup k with
    | some v => Except.ok v
    | none => Except.error (PyErr.keyError (squote ++ k ++ squote))
  | Json.null, _ =>
      Except.error (PyErr.typeError (squote ++ "NoneType" ++ squote ++ " object is not subscriptable"))
  | Json.arr _, _ =>
      Except.error (PyErr.typeError "list indices must be integers or slices, not str")
  | Json.str _, _ =>
      Except.error (PyErr.typeError "string indices must be integers")
  | Json.num _, _ =>
      Except.error (PyErr.typeError (squote ++ "int" ++ squote ++ " object is not subscriptable"))
  | Json.bool _, _ =>
      Except.error (PyErr.typeError (squote ++ "bool" ++ squote ++ " object is not subscriptable"))

/-- Python subscript with a non-negative integer index, `j[i]`. -/
def Json.getIdx : Json → Nat → Except PyErr Json
  | Json.arr xs, i =>
    match xs.get? i with
    | some v => Except.ok v
    | none => Except.error (PyErr.indexError "list index out of range")
  | Json.obj _, i => Except.error (PyErr.keyError (toString i))
  | Json.str s, i =>
    match s.data.get? i with
    | some c => Except.ok (Json.str (String.singleton c))
    | none => Except.error (PyErr.indexError "string index out of range")
  | Json.null, _ =>
      Except.error (PyErr.typeError (squote ++ "NoneType" ++ squote ++ " object is not subscriptable"))
  | Json.num _, _ =>
      Except.error (PyErr.typeError (squote ++ "int" ++ squote ++ " object is not subscriptable"))
  | Json.bool _, _ =>
      Except.error (PyErr.typeError (squote ++ "bool" ++ squote ++ " object is not subscriptable"))

/-- Exception propagation: run the continuation only when the first step
did not raise.  This is the sequencing implicit in straight-line Python. -/
def exbind {α β : Type} (x : Except PyErr α) (f : α → Except PyErr β) : Except PyErr β :=
  match x with
  | Except.error e => Except.error e
  | Except.ok a => f a

/-! ## HTTP world and responses

The two outbound calls made per resolution are modelled by passing in the
response each upstream endpoint returns: `status_code` plus the decoded
JSON body (`response.json()`) plus the raw text (`response.text`). -/

/-- An upstream HTTP response as seen by `requests`. -/
structure HttpResponse where
  status_code : Nat
  json : Json
  text : String

/-- An outbound FastAPI response: status, body, content type and the
`Location` header of a redirect. -/
structure Response where
  status_code : Nat
  body : String
  media_type : Option String
  location : Option String
deriving DecidableEq

/-- `fastapi.responses.HTMLResponse(content=..., status_code=...)`. -/
def HTMLResponse (content : String) (status_code : Nat) : Response :=
  ⟨status_code, content, some "text/html", none⟩

/-- `fastapi.responses.PlainTextResponse(content=..., status_code=...)`. -/
def PlainTextResponse (content : String) (status_code : Nat) : Response :=
  ⟨status_code, content, some "text/plain", none⟩

/-- `fastapi.responses.RedirectResponse(url=..., status_code=...)`: empty
body, target carried in the `Location` header. -/
def RedirectResponse (url : String) (status_code : Nat) : Response :=
  ⟨status_code, "", none, some url⟩

/-- The inbound request data the handler consults: the `user-agent` header
(absent when the client sent none). -/
structure Request where
  user_agent : Option String

/-! ## Constants of the source file -/

/-- `GITHUB_REDIRECT_URL` (line 36). -/
def GITHUB_REDIRECT_URL : String := "https://github.com/RoyRiv3r/RoyRiv3r"

/-- The bot marker list of `handle_clip` (line 194). -/
def bot_agents : List String :=
  ["bot", "crawler", "spider", "slurp", "facebookexternalhit", "whatsapp"]

/-! ## fetch_twitch_access_token (lines 39-59) -/

/-- `fetch_twitch_access_token()`: raises when the token endpoint answers
with a status other than 200, otherwise returns the decoded JSON body. -/
def fetch_twitch_access_token (resp : HttpResponse) : Except PyErr Json :=
  if resp.status_code ≠ 200 then
    Except.error (PyErr.exn ("Failed to get access token: " ++ resp.text))
  else
    Except.ok resp.json

/-- `get_twitch_access_token()` (lines 152-157): the token call followed by
extraction of the `access_token` field, returning the bearer token.  The
same two steps open `fetch_clip_info_sync` (lines 66-67). -/
def get_twitch_access_token (resp : HttpResponse) : Except PyErr Json :=
  exbind (fetch_twitch_access_token resp) fun token_data =>
    token_data.getKey "access_token"

/-! ## fetch_clip_info_sync (lines 61-133) -/

/-- The normalized clip record built at lines 122-130.  String-valued
entries built by f-strings are `String`; entries copied straight from the
response are `Json`. -/
structure ClipInfo where
  broadcaster_name : Json
  title : Json
  url : String
  view_count : Json
  creator_name : Json
  thumbnail_url : String
  video_url : String

/-- The `try` block at lines 107-110: extract
`response_data[0]["data"]["clip"]`,
`response_data[1]["data"]["clip"]["playbackAccessToken"]` and
`response_data[1]["data"]["clip"]["videoQualities"]`, in that order. -/
def parse_clip_structure (response_data : Json) : Except PyErr (Json × Json × Json) :=
  exbind (response_data.getIdx 0) fun r0 =>
  exbind (r0.getKey "data") fun d0 =>
  exbind (d0.getKey "clip") fun clip_data =>
  exbind (response_data.getIdx 1) fun r1 =>
  exbind (r1.getKey "data") fun d1 =>
  exbind (d1.getKey "clip") fun clip1 =>
  exbind (clip1.getKey "playbackAccessToken") fun access_data =>
  exbind (clip1.getKey "videoQualities") fun video_qualities =>
  Except.ok (clip_data, access_data, video_qualities)

/-- The `except (IndexError, KeyError, TypeError)` handler at lines
111-113: any exception of the `try` block is re-raised as
`Exception("Unexpected response structure: " + str(e))`.  (Every error the
block can raise is one of those three kinds.) -/
def wrapShape {α : Type} (x : Except PyErr α) : Except PyErr α :=
  match x with
  | Except.error e => Except.error (PyErr.exn ("Unexpected response structure: " ++ e.pyMessage))
  | Except.ok a => Except.ok a

/-- The thumbnail f-string of line 128, as a function of the slug text. -/
def thumbnailUrl (slug : String) : String :=
  "https://clips-media-assets2.twitch.tv/" ++ slug ++ "-preview-480x272.jpg"

/-- `fetch_clip_info_sync(clip_id)` over the two upstream responses.  The
clip id only shapes the outbound requests (the GraphQL payload), never the
result, so it is carried but unused.  Subscripts outside the `try` block
(lines 115-116, 119, 123-128) propagate their exception unwrapped. -/
def fetch_clip_info_sync (clip_id : String) (tokenResp gqlResp : HttpResponse) :
    Except PyErr ClipInfo :=
  exbind (fetch_twitch_access_token tokenResp) fun access_token_data =>
  exbind (access_token_data.getKey "access_token") fun _access_token =>
  if gqlResp.status_code ≠ 200 then
    Except.error (PyErr.exn ("Failed to get clip info: " ++ gqlResp.text))
  else
  exbind (wrapShape (parse_clip_structure gqlResp.json)) fun parsed =>
  match parsed with
  | (clip_data, access_data, video_qualities) =>
  exbind (access_data.getKey "signature") fun signature =>
  exbind (access_data.getKey "value") fun token =>
  exbind (video_qualities.getIdx 0) fun q0 =>
  exbind (q0.getKey "sourceURL") fun video_url =>
  exbind (clip_data.getKey "broadcaster") fun broadcaster =>
  exbind (broadcaster.getKey "displayName") fun displayName =>
  exbind (clip_data.getKey "title") fun title =>
  exbind (clip_data.getKey "slug") fun slug =>
  exbind (clip_data.getKey "viewCount") fun viewCount =>
  exbind (broadcaster.getKey "login") fun login =>
  Except.ok
    { broadcaster_name := displayName
      title := title
      url := "https://clips.twitch.tv/" ++ slug.pyStr
      view_count := viewCount
      creator_name := login
      thumbnail_url := "https://clips-media-assets2.twitch.tv/" ++ slug.pyStr ++ "-preview-480x272.jpg"
      video_url := video_url.pyStr ++ "?sig=" ++ signature.pyStr ++ "&token=" ++ pyQuote token.pyStr }

/-- `get_clip_info` (lines 159-164): async wrapper, identity on the result. -/
def get_clip_info (clip_id : String) (tokenResp gqlResp : HttpResponse) :
    Except PyErr ClipInfo :=
  fetch_clip_info_sync clip_id tokenResp gqlResp

/-- `fetch_shortened_url_sync` (lines 135-150). -/
def fetch_shortened_url_sync (resp : HttpResponse) : Except PyErr String :=
  if resp.status_code ≠ 200 then Except.error (PyErr.exn "Failed to shorten URL")
  else Except.ok resp.text.trim

/-! ## handle_clip (lines 180-227) -/

/-- The classifier of lines 193-195: lower-case the declared user agent and
test each marker with the Python `in` operator. -/
def is_bot_ua (user_agent_raw : String) : Bool :=
  bot_agents.any fun agent => strContainsSub (py_lower user_agent_raw) agent

/-- chunk of the metadata f-string before the og:title value -/
def htmlHead1 : String :=
  "\n            <html>\n            <head>\n                <meta charset=\"utf-8\">\n                <meta name=\"theme-color\" content=\"#6441a5\">\n                <meta property=\"og:title\" content=\""

/-- chunk between the og:title value and the og:site_name value -/
def htmlMid1 : String :=
  "\">\n                <meta property=\"og:type\" content=\"video\">\n                <meta property=\"og:site_name\" content=\"👁️ Views: "

/-- chunk between the og:site_name value and the og:url value -/
def htmlMid2 : String :=
  "\">\n                <meta property=\"og:url\" content=\""

/-- chunk between the og:url value and the og:video tag -/
def htmlMid3 : String := "\">\n                "

/-- chunk between the og:video tag and the og:video:secure_url tag -/
def htmlMid4 : String := "\n                "

/-- chunk between the og:video:secure_url tag and the og:image value -/
def htmlTail : String :=
  "\n                <meta property=\"og:video:type\" content=\"video/mp4\">\n                <meta property=\"og:image\" content=\""

/-- closing chunk of the metadata f-string -/
def htmlEnd : String :=
  "\">\n            </head>\n            <body>\n                <p>This page contains metadata for bots.</p>\n            </body>\n            </html>\n            "

/-- The complete `og:video` meta tag with its content value. -/
def ogVideoTag (v : String) : String :=
  "<meta property=\"og:video\" content=\"" ++ v ++ "\">"

/-- The complete `og:video:secure_url` meta tag with its content value. -/
def ogVideoSecureTag (v : String) : String :=
  "<meta property=\"og:video:secure_url\" content=\"" ++ v ++ "\">"

/-- The metadata document of lines 199-217: the chunks above concatenated
around the interpolated ClipInfo fields reproduce the Python f-string
byte for byte. -/
def html_content (ci : ClipInfo) (video_url : String) : String :=
  htmlHead1 ++ ci.broadcaster_name.pyStr ++ " - " ++ ci.title.pyStr ++
  htmlMid1 ++ ci.view_count.pyStr ++ " | " ++ ci.creator_name.pyStr ++
  htmlMid2 ++ ci.url ++
  htmlMid3 ++ ogVideoTag video_url ++
  htmlMid4 ++ ogVideoSecureTag video_url ++
  htmlTail ++ ci.thumbnail_url ++
  htmlEnd

/-- `handle_clip(clip_id, request)`: resolve the clip, classify the client,
render metadata for bots or redirect humans; any raised error becomes the
plain-text 500 response of lines 225-227. -/
def handle_clip (clip_id : String) (req : Request) (tokenResp gqlResp : HttpResponse) :
    Response :=
  match get_clip_info clip_id tokenResp gqlResp with
  | Except.error e => PlainTextResponse ("Error: " ++ e.pyMessage) 500
  | Except.ok clip_info =>
    let video_url := clip_info.video_url
    let is_bot := is_bot_ua (req.user_agent.getD "")
    if is_bot then HTMLResponse (html_content clip_info video_url) 200
    else RedirectResponse video_url 301

/-! ## Routing and the not-found middleware -/

/-- `root()` (lines 172-178). -/
def root : Response := RedirectResponse GITHUB_REDIRECT_URL 301

/-- Outcome of path matching. -/
inductive RouteMatch where
  | rootPath : RouteMatch
  | clipPath (clip_id : String) : RouteMatch
  | noMatch : RouteMatch
deriving DecidableEq

/-- Modelled from the spec: the host HTTP framework matches `GET /` and
`GET /clip/{clip_id}` (one non-empty path segment) and yields a not-found
outcome for any other path.  The framework itself is an external
collaborator, outside src/. -/
def matchRoute (path : String) : RouteMatch :=
  if path = "/" then RouteMatch.rootPath
  else if strStartsWith path "/clip/" then
    let rest := path.drop 6
    if rest = "" then RouteMatch.noMatch
    else if strContainsSub rest "/" then RouteMatch.noMatch
    else RouteMatch.clipPath rest
  else RouteMatch.noMatch

/-- Modelled from the spec: the default framework body of an unmatched
route, a 404 with a JSON body, before any middleware runs. -/
def framework_default_404 : Response :=
  ⟨404, "\x7b\"detail\":\"Not Found\"\x7d", some "application/json", none⟩

/-- Route dispatch: the registered endpoints, with the framework default
for an unmatched path. -/
def dispatch (path : String) (req : Request) (tokenResp gqlResp : HttpResponse) : Response :=
  match matchRoute path with
  | RouteMatch.rootPath => root
  | RouteMatch.clipPath clip_id => handle_clip clip_id req tokenResp gqlResp
  | RouteMatch.noMatch => framework_default_404

/-- `catch_not_found` middleware (lines 230-239): any response whose status
is 404 is replaced by a plain-text "Not Found" response. -/
def catch_not_found (response : Response) : Response :=
  if response.status_code = 404 then PlainTextResponse "Not Found" 404 else response

/-- The full per-request pipeline: dispatch, then the middleware. -/
def app_handle (path : String) (req : Request) (tokenResp gqlResp : HttpResponse) : Response :=
  catch_not_found (dispatch path req tokenResp gqlResp)

/-! ## Error taxonomy of the spec

Modelled from the spec (section 7): the taxonomy names classes of failures
by their origin; the code distinguishes them only through the exception
text.  `UpstreamProtocolError` is the failure raised when the GraphQL call
answers with a non-200 status; `UpstreamShapeError` is a failure arising
after a successful query response because an expected field is absent. -/

/-- Modelled from the spec: a failure is an `UpstreamProtocolError` when it
is the exception raised for a non-200 GraphQL response. -/
def isUpstreamProtocolError (e : PyErr) : Bool :=
  match e with
  | PyErr.exn m => strStartsWith m "Failed to get clip info: "
  | _ => false

/-- Modelled from the spec: a failure is an `UpstreamShapeError` when the
query response decoded but lacked an expected field: either the wrapped
unexpected-response-structure exception, or a raw key, type or index error
escaping from a subscript on the decoded document. -/
def isUpstreamShapeError (e : PyErr) : Bool :=
  match e with
  | PyErr.exn m => strStartsWith m "Unexpected response structure: "
  | PyErr.keyError _ => true
  | PyErr.typeError _ => true
  | PyErr.indexError _ => true

/-! ## Concrete fixtures (used by witness theorems) -/

/-- the clip payload of the first GraphQL operation result -/
def op0ClipW : Json := Json.obj [
  ("broadcaster", Json.obj [("displayName", Json.str "Streamer"), ("login", Json.str "streamer")]),
  ("title", Json.str "Nice Clip"), ("slug", Json.str "FunnySlug"), ("viewCount", Json.num 42)]

/-- first GraphQL operation result of a well-formed upstream answer -/
def op0W : Json := Json.obj [("data", Json.obj [("clip", op0ClipW)])]

/-- second GraphQL operation result of a well-formed upstream answer -/
def op1W : Json := Json.obj [("data", Json.obj [("clip", Json.obj [
  ("playbackAccessToken", Json.obj [("signature", Json.str "sigv"), ("value", Json.str "tok en")]),
  ("videoQualities", Json.arr [Json.obj [("sourceURL", Json.str "https://example.com/video.mp4")],
                               Json.obj [("sourceURL", Json.str "https://example.com/low.mp4")]])])])]

/-- a successful token-endpoint response -/
def tokenRespW : HttpResponse := ⟨200, Json.obj [("access_token", Json.str "tokval")], "tokbody"⟩

/-- a successful GraphQL response -/
def gqlRespW : HttpResponse := ⟨200, Json.arr [op0W, op1W], "gqlbody"⟩

/-- the ClipInfo that `fetch_clip_info_sync` produces from the fixtures above -/
def infoW : ClipInfo :=
  { broadcaster_name := Json.str "Streamer"
    title := Json.str "Nice Clip"
    url := "https://clips.twitch.tv/FunnySlug"
    view_count := Json.num 42
    creator_name := Json.str "streamer"
    thumbnail_url := "https://clips-media-assets2.twitch.tv/FunnySlug-preview-480x272.jpg"
    video_url := "https://example.com/video.mp4?sig=sigv&token=tok%20en" }

/-- a failing GraphQL response (transport level) -/
def gqlBadStatusW : HttpResponse := ⟨502, Json.null, "bad gateway"⟩

/-- a 200 GraphQL response whose first operation result has no clip field -/
def gqlMissingClipW : HttpResponse :=
  ⟨200, Json.arr [Json.obj [("data", Json.obj [])], Json.null], ""⟩

/-- a 200 GraphQL response whose second operation result has no playback access token -/
def gqlMissingPatW : HttpResponse :=
  ⟨200, Json.arr [op0W, Json.obj [("data", Json.obj [("clip",
    Json.obj [("videoQualities", Json.arr [Json.obj [("sourceURL", Json.str "u")]])])])]], ""⟩

/-- a 200 GraphQL response that is well-formed except for an empty quality list -/
def gqlEmptyQualW : HttpResponse :=
  ⟨200, Json.arr [op0W, Json.obj [("data", Json.obj [("clip", Json.obj [
    ("playbackAccessToken", Json.obj [("signature", Json.str "s"), ("value", Json.str "v")]),
    ("videoQualities", Json.arr [])])])]], ""⟩

/-- a crawler request -/
def reqBotW : Request := ⟨some "Mozilla/5.0 (compatible; Googlebot/2.1; +http://www.google.com/bot.html)"⟩

/-- a desktop-browser request -/
def reqHumanW : Request := ⟨some "Mozilla/5.0 (Windows NT 10.0; Win64; x64)"⟩

/-- a request without a user-agent header -/
def reqNoUaW : Request := ⟨none⟩

/-! ## Helper lemmas -/

theorem exbind_ok_iff {α β : Type} {x : Except PyErr α} {f : α → Except PyErr β} {b : β} :
    exbind x f = Except.ok b ↔ ∃ a, x = Except.ok a ∧ f a = Except.ok b := by
  cases x <;> simp [exbind]

theorem wrapShape_ok_iff {α : Type} {x : Except PyErr α} {a : α} :
    wrapShape x = Except.ok a ↔ x = Except.ok a := by
  cases x <;> simp [wrapShape]

theorem isPrefixL_append_self : ∀ (n r : List Char), isPrefixL n (n ++ r) = true
  | [], _ => rfl
  | c :: m, r => by simp [isPrefixL, isPrefixL_append_self m r]

theorem containsSubL_nil_needle : ∀ (l : List Char), containsSubL l [] = true
  | [] => rfl
  | _ :: _ => by simp [containsSubL, isPrefixL]

theorem containsSubL_mid : ∀ (p n q : List Char), containsSubL (p ++ (n ++ q)) n = true
  | [], n, q => by
    cases n with
    | nil => simpa using containsSubL_nil_needle q
    | cons c m => simp [containsSubL, isPrefixL, isPrefixL_append_self m q]
  | a :: p, n, q => by simp [containsSubL, containsSubL_mid p n q]

theorem strContainsSub_mid (a n b : String) : strContainsSub (a ++ (n ++ b)) n = true := by
  unfold strContainsSub
  rw [String.data_append, String.data_append]
  exact containsSubL_mid a.data n.data b.data

theorem strStartsWith_append_self (p s : String) : strStartsWith (p ++ s) p = true := by
  unfold strStartsWith
  rw [String.data_append]
  exact isPrefixL_append_self p.data s.data

theorem isPrefixL_false_of_ne_head {a b : Char} (p q : List Char) (h : (a == b) = false) :
    isPrefixL (a :: p) (b :: q) = false := by
  simp [isPrefixL]
  intro hab
  simp [hab] at h

theorem head_eq_of_isPrefixL {a c : Char} {p l : List Char}
    (h : isPrefixL (a :: p) (c :: l) = true) : a = c := by
  simp [isPrefixL] at h
  exact h.1

/-- the head decomposition of the protocol-error message prefix -/
theorem protoMsg_head : ("Failed to get clip info: ").data =
    Char.ofNat 70 :: ("ailed to get clip info: ").data := by decide

/-- the head decomposition of the shape-error message prefix -/
theorem shapeMsg_head : ("Unexpected response structure: ").data =
    Char.ofNat 85 :: ("nexpected response structure: ").data := by decide

/-- message classification of a transport-level query failure -/
theorem proto_class (s : String) :
    isUpstreamProtocolError (PyErr.exn ("Failed to get clip info: " ++ s)) = true ∧
    isUpstreamShapeError (PyErr.exn ("Failed to get clip info: " ++ s)) = false := by
  constructor
  · exact strStartsWith_append_self "Failed to get clip info: " s
  · show strStartsWith ("Failed to get clip info: " ++ s) "Unexpected response structure: " = false
    unfold strStartsWith
    rw [String.data_append, shapeMsg_head, protoMsg_head, List.cons_append]
    exact isPrefixL_false_of_ne_head _ _ (by decide)

/-- message classification of a wrapped unexpected-structure failure -/
theorem shape_class (s : String) :
    isUpstreamShapeError (PyErr.exn ("Unexpected response structure: " ++ s)) = true ∧
    isUpstreamProtocolError (PyErr.exn ("Unexpected response structure: " ++ s)) = false := by
  constructor
  · exact strStartsWith_append_self "Unexpected response structure: " s
  · show strStartsWith ("Unexpected response structure: " ++ s) "Failed to get clip info: " = false
    unfold strStartsWith
    rw [String.data_append, shapeMsg_head, protoMsg_head, List.cons_append]
    exact isPrefixL_false_of_ne_head _ _ (by decide)

/-- the protocol and shape classifications never hold of one error value -/
theorem proto_shape_disjoint (e : PyErr) :
    ¬(isUpstreamProtocolError e = true ∧ isUpstreamShapeError e = true) := by
  cases e with
  | exn m =>
    rintro ⟨hp, hs⟩
    simp only [isUpstreamProtocolError, isUpstreamShapeError, strStartsWith] at hp hs
    cases hm : m.data with
    | nil =>
      rw [hm] at hp
      simp [isPrefixL] at hp
    | cons c l =>
      rw [hm] at hp hs
      have h1 := head_eq_of_isPrefixL hp
      have h2 := head_eq_of_isPrefixL hs
      rw [← h2] at h1
      exact absurd h1 (by decide)
  | keyError m => rintro ⟨hp, _⟩; simp [isUpstreamProtocolError] at hp
  | typeError m => rintro ⟨hp, _⟩; simp [isUpstreamProtocolError] at hp
  | indexError m => rintro ⟨hp, _⟩; simp [isUpstreamProtocolError] at hp

/-- evaluation of a string subscript on a dict value -/
theorem getKey_obj (kvs : List (String × Json)) (k : String) :
    Json.getKey (Json.obj kvs) k
      = match List.lookup k kvs with
        | some v => Except.ok v
        | none => Except.error (PyErr.keyError (squote ++ k ++ squote)) := rfl

/-- evaluation of an integer subscript on a list value -/
theorem getIdx_arr (xs : List Json) (i : Nat) :
    Json.getIdx (Json.arr xs) i
      = match xs.get? i with
        | some v => Except.ok v
        | none => Except.error (PyErr.indexError "list index out of range") := rfl

/-- Success inversion for the resolver: a returned ClipInfo record is
exactly the one assembled from the fields extracted from the GraphQL
response. -/
theorem fetch_ok_elim {cid : String} {t g : HttpResponse} {info : ClipInfo}
    (h : fetch_clip_info_sync cid t g = Except.ok info) :
    ∃ atd tok clip_data access_data vq sig tokv q0 src bro dn ti sl vc lo,
      fetch_twitch_access_token t = Except.ok atd ∧
      Json.getKey atd "access_token" = Except.ok tok ∧
      g.status_code = 200 ∧
      parse_clip_structure g.json = Except.ok (clip_data, access_data, vq) ∧
      Json.getKey access_data "signature" = Except.ok sig ∧
      Json.getKey access_data "value" = Except.ok tokv ∧
      Json.getIdx vq 0 = Except.ok q0 ∧
      Json.getKey q0 "sourceURL" = Except.ok src ∧
      Json.getKey clip_data "broadcaster" = Except.ok bro ∧
      Json.getKey bro "displayName" = Except.ok dn ∧
      Json.getKey clip_data "title" = Except.ok ti ∧
      Json.getKey clip_data "slug" = Except.ok sl ∧
      Json.getKey clip_data "viewCount" = Except.ok vc ∧
      Json.getKey bro "login" = Except.ok lo ∧
      info = { broadcaster_name := dn
               title := ti
               url := "https://clips.twitch.tv/" ++ sl.pyStr
               view_count := vc
               creator_name := lo
               thumbnail_url := "https://clips-media-assets2.twitch.tv/" ++ sl.pyStr ++ "-preview-480x272.jpg"
               video_url := src.pyStr ++ "?sig=" ++ sig.pyStr ++ "&token=" ++ pyQuote tokv.pyStr } := by
  unfold fetch_clip_info_sync at h
  rw [exbind_ok_iff] at h
  obtain ⟨atd, h1, h⟩ := h
  rw [exbind_ok_iff] at h
  obtain ⟨tok, h2, h⟩ := h
  split at h
  · exact absurd h (by simp)
  next hg =>
    rw [exbind_ok_iff] at h
    obtain ⟨parsed, hp, h⟩ := h
    rw [wrapShape_ok_iff] at hp
    obtain ⟨clip_data, access_data, vq⟩ := parsed
    dsimp only at h
    rw [exbind_ok_iff] at h
    obtain ⟨sig, h3, h⟩ := h
    rw [exbind_ok_iff] at h
    obtain ⟨tokv, h4, h⟩ := h
    rw [exbind_ok_iff] at h
    obtain ⟨q0, h5, h⟩ := h
    rw [exbind_ok_iff] at h
    obtain ⟨src, h6, h⟩ := h
    rw [exbind_ok_iff] at h
    obtain ⟨bro, h7, h⟩ := h
    rw [exbind_ok_iff] at h
    obtain ⟨dn, h8, h⟩ := h
    rw [exbind_ok_iff] at h
    obtain ⟨ti, h9, h⟩ := h
    rw [exbind_ok_iff] at h
    obtain ⟨sl, h10, h⟩ := h
    rw [exbind_ok_iff] at h
    obtain ⟨vc, h11, h⟩ := h
    rw [exbind_ok_iff] at h
    obtain ⟨lo, h12, h⟩ := h
    simp only [Except.ok.injEq] at h
    exact ⟨atd, tok, clip_data, access_data, vq, sig, tokv, q0, src, bro, dn, ti, sl, vc, lo,
      h1, h2, not_not.mp hg, hp, h3, h4, h5, h6, h7, h8, h9, h10, h11, h12, h.symm⟩

/-! ## Claim theorems -/

/-- C1: For every successful resolution, fetch_clip_info_sync selects the
first entry (index 0, no re-sorting) of the quality-variant list returned
by the query, and the ClipInfo video_url is that entry source URL with the
signature and the percent-encoded playback token appended as query
parameters; consequently video_url is non-empty and contains both a
signature and a token query parameter. -/
theorem c1_video_url_first_quality
    (cid : String) (t g : HttpResponse) (info : ClipInfo)
    (h : fetch_clip_info_sync cid t g = Except.ok info) :
    ∃ clip_data access_data vq sig tokv q0 src,
      parse_clip_structure g.json = Except.ok (clip_data, access_data, vq) ∧
      Json.getIdx vq 0 = Except.ok q0 ∧
      Json.getKey q0 "sourceURL" = Except.ok src ∧
      Json.getKey access_data "signature" = Except.ok sig ∧
      Json.getKey access_data "value" = Except.ok tokv ∧
      info.video_url = src.pyStr ++ "?sig=" ++ sig.pyStr ++ "&token=" ++ pyQuote tokv.pyStr ∧
      info.video_url ≠ "" ∧
      strContainsSub info.video_url "?sig=" = true ∧
      strContainsSub info.video_url "&token=" = true := by
  obtain ⟨atd, tok, cd, ad, vq, sig, tokv, q0, src, bro, dn, ti, sl, vc, lo,
    h1, h2, hg, hp, h3, h4, h5, h6, h7, h8, h9, h10, h11, h12, hinfo⟩ := fetch_ok_elim h
  refine ⟨cd, ad, vq, sig, tokv, q0, src, hp, h5, h6, h3, h4, by rw [hinfo], ?_, ?_, ?_⟩
  · rw [hinfo]
    intro habs
    have hlen := congrArg String.length habs
    simp only [String.length_append] at hlen
    have c5 : String.length "?sig=" = 5 := rfl
    have c0 : String.length "" = 0 := rfl
    rw [c5, c0] at hlen
    omega
  · have e1 : info.video_url
        = src.pyStr ++ ("?sig=" ++ (sig.pyStr ++ "&token=" ++ pyQuote tokv.pyStr)) := by
      rw [hinfo]
      simp [String.append_assoc]
    rw [e1]
    exact strContainsSub_mid _ _ _
  · have e2 : info.video_url
        = (src.pyStr ++ "?sig=" ++ sig.pyStr) ++ ("&token=" ++ pyQuote tokv.pyStr) := by
      rw [hinfo]
      simp [String.append_assoc]
    rw [e2]
    exact strContainsSub_mid _ _ _

/-- Witness for C1, at the concrete fixture world. -/
theorem c1_witness :
    ∃ clip_data access_data vq sig tokv q0 src,
      parse_clip_structure gqlRespW.json = Except.ok (clip_data, access_data, vq) ∧
      Json.getIdx vq 0 = Except.ok q0 ∧
      Json.getKey q0 "sourceURL" = Except.ok src ∧
      Json.getKey access_data "signature" = Except.ok sig ∧
      Json.getKey access_data "value" = Except.ok tokv ∧
      infoW.video_url = src.pyStr ++ "?sig=" ++ sig.pyStr ++ "&token=" ++ pyQuote tokv.pyStr ∧
      infoW.video_url ≠ "" ∧
      strContainsSub infoW.video_url "?sig=" = true ∧
      strContainsSub infoW.video_url "&token=" = true :=
  c1_video_url_first_quality "FunnySlug" tokenRespW gqlRespW infoW (by rfl)

/-- C2: Client classification is a pure function of the user-agent string,
case-insensitive (it depends only on the lower-cased string), holds
exactly when the lower-cased user agent contains one of the fixed marker
substrings, classifies any user agent containing "Googlebot" as automated,
and classifies the plain Windows desktop user agent as regular. -/
theorem c2_bot_classification :
    (∀ ua1 ua2 : String, py_lower ua1 = py_lower ua2 → is_bot_ua ua1 = is_bot_ua ua2) ∧
    (∀ ua : String,
      is_bot_ua ua = true ↔ ∃ m, m ∈ bot_agents ∧ strContainsSub (py_lower ua) m = true) ∧
    (∀ p q : String, is_bot_ua (p ++ ("Googlebot" ++ q)) = true) ∧
    is_bot_ua "Mozilla/5.0 (Windows NT 10.0; Win64; x64)" = false := by
  refine ⟨?_, ?_, ?_, by decide⟩
  · intro ua1 ua2 hl
    simp only [is_bot_ua, hl]
  · intro ua
    simp only [is_bot_ua, List.any_eq_true]
  · intro p q
    have hcontains : strContainsSub (py_lower (p ++ ("Googlebot" ++ q))) "bot" = true := by
      show containsSubL ((p ++ ("Googlebot" ++ q)).data.map Char.toLower) ("bot" : String).data = true
      rw [String.data_append, String.data_append, List.map_append, List.map_append]
      have hg : ("Googlebot" : String).data.map Char.toLower
          = ("google" : String).data ++ ("bot" : String).data := by decide
      rw [hg]
      have hshape : p.data.map Char.toLower ++
            (("google" : String).data ++ ("bot" : String).data ++ q.data.map Char.toLower)
          = (p.data.map Char.toLower ++ ("google" : String).data) ++
            (("bot" : String).data ++ q.data.map Char.toLower) := by
        simp [List.append_assoc]
      rw [hshape]
      exact containsSubL_mid _ _ _
    exact List.any_eq_true.mpr ⟨"bot", by decide, hcontains⟩

/-- Witness for C2: case-insensitivity applied at a concrete pair, and the
Googlebot rule applied at a concrete user agent. -/
theorem c2_witness :
    is_bot_ua "GoogleBOT" = is_bot_ua "googlebot" ∧
    is_bot_ua ("Mozilla/5.0 (compatible; " ++ ("Googlebot" ++ "/2.1)")) = true :=
  ⟨c2_bot_classification.1 "GoogleBOT" "googlebot" (by decide),
   c2_bot_classification.2.2.1 "Mozilla/5.0 (compatible; " "/2.1)"⟩

/-- C7: The thumbnail URL is the fixed-template function of the slug,
injective in the slug, and the ClipInfo field is that function applied to
the slug extracted from the clip payload. -/
theorem c7_thumbnail_url
    (cid : String) (t g : HttpResponse) (info : ClipInfo)
    (h : fetch_clip_info_sync cid t g = Except.ok info) :
    (∀ s : String,
      thumbnailUrl s = "https://clips-media-assets2.twitch.tv/" ++ s ++ "-preview-480x272.jpg") ∧
    (∀ s1 s2 : String, s1 ≠ s2 → thumbnailUrl s1 ≠ thumbnailUrl s2) ∧
    ∃ clip_data access_data vq sl,
      parse_clip_structure g.json = Except.ok (clip_data, access_data, vq) ∧
      Json.getKey clip_data "slug" = Except.ok sl ∧
      info.thumbnail_url = thumbnailUrl sl.pyStr := by
  obtain ⟨atd, tok, cd, ad, vq, sig, tokv, q0, src, bro, dn, ti, sl, vc, lo,
    h1, h2, hg, hp, h3, h4, h5, h6, h7, h8, h9, h10, h11, h12, hinfo⟩ := fetch_ok_elim h
  refine ⟨fun s => rfl, ?_, cd, ad, vq, sl, hp, h10, by rw [hinfo]; rfl⟩
  intro s1 s2 hne heq
  apply hne
  have hd := congrArg String.data heq
  simp only [thumbnailUrl, String.data_append] at hd
  exact String.ext (List.append_cancel_left (List.append_cancel_right hd))

/-- Witness for C7, applied at the concrete fixture world. -/
theorem c7_witness :
    thumbnailUrl "abc"
      = "https://clips-media-assets2.twitch.tv/" ++ "abc" ++ "-preview-480x272.jpg" ∧
    infoW.thumbnail_url = thumbnailUrl (Json.str "FunnySlug").pyStr := by
  have h := c7_thumbnail_url "FunnySlug" tokenRespW gqlRespW infoW (by rfl)
  exact ⟨h.1 "abc", by rfl⟩

/-- C3: On a successful resolution with an automated-classified client,
handle_clip answers 200 with an HTML document whose og:video and
og:video:secure_url tags carry exactly the resolved video_url. -/
theorem c3_bot_metadata_html
    (cid : String) (req : Request) (t g : HttpResponse) (info : ClipInfo)
    (h : fetch_clip_info_sync cid t g = Except.ok info)
    (hb : is_bot_ua (req.user_agent.getD "") = true) :
    handle_clip cid req t g = HTMLResponse (html_content info info.video_url) 200 ∧
    (handle_clip cid req t g).status_code = 200 ∧
    (handle_clip cid req t g).media_type = some "text/html" ∧
    (∃ pre post, (handle_clip cid req t g).body = pre ++ (ogVideoTag info.video_url ++ post)) ∧
    (∃ pre post, (handle_clip cid req t g).body = pre ++ (ogVideoSecureTag info.video_url ++ post)) := by
  have hres : handle_clip cid req t g = HTMLResponse (html_content info info.video_url) 200 := by
    simp [handle_clip, get_clip_info, h, hb]
  refine ⟨hres, by rw [hres]; rfl, by rw [hres]; rfl, ?_, ?_⟩
  · refine ⟨htmlHead1 ++ info.broadcaster_name.pyStr ++ " - " ++ info.title.pyStr ++
      htmlMid1 ++ info.view_count.pyStr ++ " | " ++ info.creator_name.pyStr ++
      htmlMid2 ++ info.url ++ htmlMid3,
      htmlMid4 ++ ogVideoSecureTag info.video_url ++ htmlTail ++ info.thumbnail_url ++ htmlEnd, ?_⟩
    rw [hres]
    show html_content info info.video_url = _
    simp [html_content, String.append_assoc]
  · refine ⟨htmlHead1 ++ info.broadcaster_name.pyStr ++ " - " ++ info.title.pyStr ++
      htmlMid1 ++ info.view_count.pyStr ++ " | " ++ info.creator_name.pyStr ++
      htmlMid2 ++ info.url ++ htmlMid3 ++ ogVideoTag info.video_url ++ htmlMid4,
      htmlTail ++ info.thumbnail_url ++ htmlEnd, ?_⟩
    rw [hres]
    show html_content info info.video_url = _
    simp [html_content, String.append_assoc]

/-- Witness for C3, at the concrete fixture world with a crawler user agent. -/
theorem c3_witness :
    (handle_clip "FunnySlug" reqBotW tokenRespW gqlRespW).status_code = 200 ∧
    (handle_clip "FunnySlug" reqBotW tokenRespW gqlRespW).media_type = some "text/html" ∧
    (∃ pre post, (handle_clip "FunnySlug" reqBotW tokenRespW gqlRespW).body
        = pre ++ (ogVideoTag infoW.video_url ++ post)) ∧
    (∃ pre post, (handle_clip "FunnySlug" reqBotW tokenRespW gqlRespW).body
        = pre ++ (ogVideoSecureTag infoW.video_url ++ post)) := by
  have h := c3_bot_metadata_html "FunnySlug" reqBotW tokenRespW gqlRespW infoW (by rfl) (by decide)
  exact ⟨h.2.1, h.2.2.1, h.2.2.2.1, h.2.2.2.2⟩

/-- C4: On a successful resolution with a regular-classified client,
handle_clip answers a permanent 301 redirect whose target is exactly the
resolved video_url; the response has an empty body and no HTML media type. -/
theorem c4_regular_redirect
    (cid : String) (req : Request) (t g : HttpResponse) (info : ClipInfo)
    (h : fetch_clip_info_sync cid t g = Except.ok info)
    (hb : is_bot_ua (req.user_agent.getD "") = false) :
    handle_clip cid req t g = RedirectResponse info.video_url 301 ∧
    (handle_clip cid req t g).status_code = 301 ∧
    (handle_clip cid req t g).location = some info.video_url ∧
    (handle_clip cid req t g).body = "" ∧
    (handle_clip cid req t g).media_type = none := by
  have hres : handle_clip cid req t g = RedirectResponse info.video_url 301 := by
    simp [handle_clip, get_clip_info, h, hb]
  exact ⟨hres, by rw [hres]; rfl, by rw [hres]; rfl, by rw [hres]; rfl, by rw [hres]; rfl⟩

/-- Witness for C4, at the concrete fixture world with a desktop user agent. -/
theorem c4_witness :
    handle_clip "FunnySlug" reqHumanW tokenRespW gqlRespW = RedirectResponse infoW.video_url 301 :=
  (c4_regular_redirect "FunnySlug" reqHumanW tokenRespW gqlRespW infoW (by rfl) (by decide)).1

/-- C8: Every resolution failure, of any kind, is answered by handle_clip
with a plain-text 500 response whose body contains the raw error detail;
the handler is a total function, so no fault escapes it. -/
theorem c8_failure_500
    (cid : String) (req : Request) (t g : HttpResponse) (e : PyErr)
    (h : fetch_clip_info_sync cid t g = Except.error e) :
    handle_clip cid req t g = PlainTextResponse ("Error: " ++ e.pyMessage) 500 ∧
    (handle_clip cid req t g).status_code = 500 ∧
    (handle_clip cid req t g).media_type = some "text/plain" ∧
    ∃ pre post, (handle_clip cid req t g).body = pre ++ (e.pyMessage ++ post) := by
  have hres : handle_clip cid req t g = PlainTextResponse ("Error: " ++ e.pyMessage) 500 := by
    simp [handle_clip, get_clip_info, h]
  refine ⟨hres, by rw [hres]; rfl, by rw [hres]; rfl, "Error: ", "", ?_⟩
  rw [hres]
  show "Error: " ++ e.pyMessage = "Error: " ++ (e.pyMessage ++ "")
  rw [String.append_empty]

/-- Witness for C8, at a failing upstream query status. -/
theorem c8_witness :
    handle_clip "x" reqHumanW tokenRespW gqlBadStatusW
      = PlainTextResponse ("Error: " ++ (PyErr.exn "Failed to get clip info: bad gateway").pyMessage) 500 :=
  (c8_failure_500 "x" reqHumanW tokenRespW gqlBadStatusW
    (PyErr.exn "Failed to get clip info: bad gateway") (by rfl)).1

/-- C10: A request with no user-agent header (or an empty one) is treated
as the empty string, classified regular, and on success answered with the
301 redirect to the video URL. -/
theorem c10_no_user_agent_redirect
    (cid : String) (req : Request) (t g : HttpResponse) (info : ClipInfo)
    (hua : req.user_agent = none ∨ req.user_agent = some "")
    (h : fetch_clip_info_sync cid t g = Except.ok info) :
    req.user_agent.getD "" = "" ∧
    is_bot_ua (req.user_agent.getD "") = false ∧
    handle_clip cid req t g = RedirectResponse info.video_url 301 := by
  have h0 : req.user_agent.getD "" = "" := by
    cases hua with
    | inl h1 => rw [h1]; rfl
    | inr h1 => rw [h1]; rfl
  have hb : is_bot_ua (req.user_agent.getD "") = false := by
    rw [h0]; decide
  exact ⟨h0, hb, by simp [handle_clip, get_clip_info, h, hb]⟩

/-- Witness for C10, at the concrete fixture world with no user agent. -/
theorem c10_witness :
    handle_clip "FunnySlug" reqNoUaW tokenRespW gqlRespW = RedirectResponse infoW.video_url 301 :=
  (c10_no_user_agent_redirect "FunnySlug" reqNoUaW tokenRespW gqlRespW infoW (Or.inl rfl) (by rfl)).2.2

/-- C5: Given a successful token stage, the resolver fails with the
UpstreamProtocolError on a non-200 query response; a missing clip field, a
missing playback access token and an empty quality-variant list each fail
with an UpstreamShapeError; and the two failure kinds are disjoint, hence
distinguishable from each other. -/
theorem c5_error_taxonomy
    (t : HttpResponse) (tv : Json)
    (ht : t.status_code = 200)
    (htok : Json.getKey t.json "access_token" = Except.ok tv) :
    (∀ (cid : String) (g : HttpResponse), g.status_code ≠ 200 →
      fetch_clip_info_sync cid t g
          = Except.error (PyErr.exn ("Failed to get clip info: " ++ g.text)) ∧
      isUpstreamProtocolError (PyErr.exn ("Failed to get clip info: " ++ g.text)) = true ∧
      isUpstreamShapeError (PyErr.exn ("Failed to get clip info: " ++ g.text)) = false) ∧
    (∀ (cid : String) (g : HttpResponse) (j1 : Json), g.status_code = 200 →
      g.json = Json.arr [Json.obj [("data", Json.obj [])], j1] →
      ∃ e, fetch_clip_info_sync cid t g = Except.error e ∧
        isUpstreamShapeError e = true ∧ isUpstreamProtocolError e = false) ∧
    (∀ (cid : String) (g : HttpResponse) (c0 : Json) (kvs : List (String × Json)),
      g.status_code = 200 →
      g.json = Json.arr [Json.obj [("data", Json.obj [("clip", c0)])],
                         Json.obj [("data", Json.obj [("clip", Json.obj kvs)])]] →
      kvs.lookup "playbackAccessToken" = none →
      ∃ e, fetch_clip_info_sync cid t g = Except.error e ∧
        isUpstreamShapeError e = true ∧ isUpstreamProtocolError e = false) ∧
    (∀ (cid : String) (g : HttpResponse) (c0 pat sg tk : Json), g.status_code = 200 →
      g.json = Json.arr [Json.obj [("data", Json.obj [("clip", c0)])],
        Json.obj [("data", Json.obj [("clip", Json.obj
          [("playbackAccessToken", pat), ("videoQualities", Json.arr [])])])]] →
      Json.getKey pat "signature" = Except.ok sg →
      Json.getKey pat "value" = Except.ok tk →
      fetch_clip_info_sync cid t g = Except.error (PyErr.indexError "list index out of range") ∧
      isUpstreamShapeError (PyErr.indexError "list index out of range") = true ∧
      isUpstreamProtocolError (PyErr.indexError "list index out of range") = false) ∧
    (∀ e : PyErr, ¬(isUpstreamProtocolError e = true ∧ isUpstreamShapeError e = true)) := by
  refine ⟨?_, ?_, ?_, ?_, proto_shape_disjoint⟩
  · intro cid g hg
    refine ⟨?_, (proto_class g.text).1, (proto_class g.text).2⟩
    simp [fetch_clip_info_sync, fetch_twitch_access_token, ht, exbind]
    rw [htok]
    simp [hg]
  · intro cid g j1 hg hj
    refine ⟨PyErr.exn ("Unexpected response structure: " ++ (squote ++ "clip" ++ squote)),
      ?_, (shape_class _).1, (shape_class _).2⟩
    simp [fetch_clip_info_sync, fetch_twitch_access_token, ht, exbind]
    rw [htok]
    simp [hg, hj, parse_clip_structure, wrapShape, getKey_obj, getIdx_arr, exbind,
      List.lookup, List.get?, PyErr.pyMessage]
  · intro cid g c0 kvs hg hj hlook
    refine ⟨PyErr.exn ("Unexpected response structure: "
        ++ (squote ++ "playbackAccessToken" ++ squote)),
      ?_, (shape_class _).1, (shape_class _).2⟩
    simp [fetch_clip_info_sync, fetch_twitch_access_token, ht, exbind]
    rw [htok]
    simp [hg, hj, hlook, parse_clip_structure, wrapShape, getKey_obj, getIdx_arr, exbind,
      List.lookup, List.get?, PyErr.pyMessage]
  · intro cid g c0 pat sg tk hg hj hsig hval
    refine ⟨?_, rfl, rfl⟩
    simp [fetch_clip_info_sync, fetch_twitch_access_token, ht, exbind]
    rw [htok]
    simp [hg, hj, parse_clip_structure, wrapShape, getKey_obj, getIdx_arr, exbind,
      List.lookup, List.get?, PyErr.pyMessage]
    rw [hsig]
    simp [exbind]
    rw [hval]

/-- Witness for C5: each failure case exercised at a concrete world. -/
theorem c5_witness :
    fetch_clip_info_sync "x" tokenRespW gqlBadStatusW
        = Except.error (PyErr.exn ("Failed to get clip info: " ++ "bad gateway")) ∧
    (∃ e, fetch_clip_info_sync "x" tokenRespW gqlMissingClipW = Except.error e ∧
      isUpstreamShapeError e = true ∧ isUpstreamProtocolError e = false) ∧
    (∃ e, fetch_clip_info_sync "x" tokenRespW gqlMissingPatW = Except.error e ∧
      isUpstreamShapeError e = true ∧ isUpstreamProtocolError e = false) ∧
    fetch_clip_info_sync "x" tokenRespW gqlEmptyQualW
        = Except.error (PyErr.indexError "list index out of range") := by
  have h := c5_error_taxonomy tokenRespW (Json.str "tokval") rfl (by rfl)
  refine ⟨(h.1 "x" gqlBadStatusW (by decide)).1, ?_, ?_, ?_⟩
  · exact h.2.1 "x" gqlMissingClipW Json.null rfl (by rfl)
  · exact h.2.2.1 "x" gqlMissingPatW op0ClipW
      [("videoQualities", Json.arr [Json.obj [("sourceURL", Json.str "u")]])] rfl (by rfl) (by rfl)
  · exact (h.2.2.2.1 "x" gqlEmptyQualW op0ClipW
      (Json.obj [("signature", Json.str "s"), ("value", Json.str "v")])
      (Json.str "s") (Json.str "v") rfl (by rfl) (by rfl) (by rfl)).1

/-- C6: The token acquisition fails in exactly two cases: a non-200 status
of the identity endpoint, or a 200 response whose body lacks the
access_token field; otherwise it returns the token. -/
theorem c6_access_token_contract (resp : HttpResponse) :
    (resp.status_code ≠ 200 →
      get_twitch_access_token resp
        = Except.error (PyErr.exn ("Failed to get access token: " ++ resp.text))) ∧
    (∀ e, resp.status_code = 200 → Json.getKey resp.json "access_token" = Except.error e →
      get_twitch_access_token resp = Except.error e) ∧
    (∀ tok, resp.status_code = 200 → Json.getKey resp.json "access_token" = Except.ok tok →
      get_twitch_access_token resp = Except.ok tok) ∧
    (∀ e, get_twitch_access_token resp = Except.error e →
      resp.status_code ≠ 200 ∨ ∃ e2, Json.getKey resp.json "access_token" = Except.error e2) := by
  refine ⟨?_, ?_, ?_, ?_⟩
  · intro hs
    simp [get_twitch_access_token, fetch_twitch_access_token, hs, exbind]
  · intro e hs hk
    simp [get_twitch_access_token, fetch_twitch_access_token, hs, hk, exbind]
  · intro tok hs hk
    simp [get_twitch_access_token, fetch_twitch_access_token, hs, hk, exbind]
  · intro e h
    by_cases hs : resp.status_code = 200
    · right
      simp [get_twitch_access_token, fetch_twitch_access_token, hs, exbind] at h
      exact ⟨e, h⟩
    · left
      exact hs

/-- Witness for C6: a denied exchange and a successful exchange. -/
theorem c6_witness :
    get_twitch_access_token ⟨403, Json.null, "denied"⟩
      = Except.error (PyErr.exn ("Failed to get access token: " ++ "denied")) ∧
    get_twitch_access_token tokenRespW = Except.ok (Json.str "tokval") :=
  ⟨(c6_access_token_contract ⟨403, Json.null, "denied"⟩).1 (by decide),
   (c6_access_token_contract tokenRespW).2.2.1 (Json.str "tokval") rfl (by rfl)⟩

/-- C9: The middleware replaces any 404 outcome, whatever its body, with
the plain-text "Not Found" response; hence every request whose path
matches no route is answered 404 with body exactly "Not Found". -/
theorem c9_not_found :
    (∀ resp : Response, resp.status_code = 404 →
      catch_not_found resp = PlainTextResponse "Not Found" 404) ∧
    (∀ (path : String) (req : Request) (t g : HttpResponse),
      matchRoute path = RouteMatch.noMatch →
      app_handle path req t g = PlainTextResponse "Not Found" 404) := by
  constructor
  · intro resp h
    simp [catch_not_found, h]
  · intro path req t g hm
    simp [app_handle, dispatch, hm, catch_not_found, framework_default_404]

/-- Witness for C9: the framework default body is overridden, and an
unmatched path yields the plain-text not-found response. -/
theorem c9_witness :
    catch_not_found framework_default_404 = PlainTextResponse "Not Found" 404 ∧
    app_handle "/nope" reqHumanW tokenRespW gqlRespW = PlainTextResponse "Not Found" 404 :=
  ⟨c9_not_found.1 framework_default_404 rfl,
   c9_not_found.2 "/nope" reqHumanW tokenRespW gqlRespW (by decide)⟩

end FxTwitch
